import Mathlib

/-!
Shallow embedding of `src/ec2_manager.py` (EC2 Manager).

Modelling conventions:
* Python dictionaries coming back from the provider are modelled as structures
  whose fields are `Option`-valued (`dict.get` returns `None` for a missing key).
* A Python string value is a Lean `String`; `datetime` values are opaque strings.
* Exceptions are modelled with `Except`: `PyError.clientError` is a botocore
  `ClientError` (carrying its `str(e)` rendering), `PyError.attributeError` is the
  `AttributeError` raised by `None.get(...)`, and `PyError.typeError` is the
  `TypeError` raised by iterating over `None`.
* The boto3 client is a behaviour oracle: a function from the issued call to the
  call's outcome.  Functions that issue calls also return the ordered trace of the
  calls they issued, so that call counts are provable.
* `print` output is modelled as an ordered list of emitted lines; each line is
  tagged with the print site that emitted it (the `FieldLine` component), the
  printed text being the second component.
-/

/-- Mirrors the `Settings` dataclass: command line args passed around. -/
structure Settings where
  instance_id : String
  test : Bool := false
  verbose : Bool := false
  quiet : Bool := false
deriving DecidableEq

/-- Mirrors the `EC2Instance` dataclass.  Fields obtained through a bare
`dict.get` may be `None` at runtime, hence `Option`; `public_dns_name` and
`public_ip_address` are always set (to the value or to the `"NONE"` sentinel). -/
structure EC2Instance where
  image_id : Option String
  instance_id : Option String
  instance_type : Option String
  launch_time : Option String
  availability_zone : Option String
  private_dns_name : Option String
  private_ip_address : Option String
  public_ip_address : String
  public_dns_name : String
  state : Option String
  subnet_id : Option String
  vpc_id : Option String
  tags : Option (List (String × String))
deriving DecidableEq

/-- The `"Placement"` sub-dictionary of a describe-instances entry. -/
structure RawPlacement where
  availabilityZone : Option String
deriving DecidableEq

/-- The `"State"` sub-dictionary of a describe-instances entry. -/
structure RawState where
  name : Option String
deriving DecidableEq

/-- One raw instance entry of a boto3 describe-instances response. -/
structure RawInstance where
  imageId : Option String
  instanceId : Option String
  instanceType : Option String
  launchTime : Option String
  placement : Option RawPlacement
  privateDnsName : Option String
  privateIpAddress : Option String
  publicDnsName : Option String
  publicIpAddress : Option String
  state : Option RawState
  subnetId : Option String
  vpcId : Option String
  tags : Option (List (String × String))
deriving DecidableEq

/-- One `"Reservations"` element of a describe-instances response. -/
structure Reservation where
  instances : Option (List RawInstance)
deriving DecidableEq

/-- A raw boto3 describe-instances response. -/
structure DescribeResponse where
  reservations : Option (List Reservation)
deriving DecidableEq

/-- A botocore `ClientError`, reduced to its `str(e)` rendering, which is all
the script inspects. -/
structure ClientError where
  msg : String
deriving DecidableEq

/-- A Python exception the script can raise or catch. -/
inductive PyError where
  | clientError (e : ClientError)
  | attributeError
  | typeError
deriving DecidableEq

/-- Python's `needle in hay` on strings: substring containment. -/
def pyIn (needle hay : String) : Bool :=
  decide (needle.toList <:+: hay.toList)

/-- The `if value := instance.get(key)` walrus pattern of the mapper: Python
truthiness of an optional string.  A missing key and a present empty string are
both falsy and fall to the `"NONE"` branch; a non-empty value is kept. -/
def truthyOrNone : Option String → String
  | some v => if v = "" then "NONE" else v
  | none => "NONE"

/-- The body of `EC2Manager.instance_from_response` for a single instance entry.
The public DNS name and public IP address go through the truthiness test above;
`instance.get("Placement").get("AvailabilityZone")` (and likewise `"State"`)
raises `AttributeError` when the sub-dictionary is absent. -/
def instanceFromEntry (inst : RawInstance) : Except PyError EC2Instance :=
  let public_dns_name : String := truthyOrNone inst.publicDnsName
  let public_ip_address : String := truthyOrNone inst.publicIpAddress
  match inst.placement, inst.state with
  | some placement, some st =>
      Except.ok
        { image_id := inst.imageId
          instance_id := inst.instanceId
          instance_type := inst.instanceType
          launch_time := inst.launchTime
          availability_zone := placement.availabilityZone
          private_dns_name := inst.privateDnsName
          private_ip_address := inst.privateIpAddress
          public_dns_name := public_dns_name
          public_ip_address := public_ip_address
          state := st.name
          subnet_id := inst.subnetId
          vpc_id := inst.vpcId
          tags := inst.tags }
  | _, _ => Except.error PyError.attributeError

/-- The inner `for instance in reservation.get("Instances")` loop: maps each
entry in order, propagating the first raised exception. -/
def mapInstances : List RawInstance → Except PyError (List EC2Instance)
  | [] => Except.ok []
  | i :: rest =>
    match instanceFromEntry i, mapInstances rest with
    | Except.ok r, Except.ok rs => Except.ok (r :: rs)
    | Except.error e, _ => Except.error e
    | _, Except.error e => Except.error e

/-- The outer `for reservation in response.get("Reservations")` loop.  Iterating
over a missing `"Instances"` key (`None`) raises `TypeError`. -/
def mapReservations : List Reservation → Except PyError (List EC2Instance)
  | [] => Except.ok []
  | r :: rest =>
    match r.instances with
    | none => Except.error PyError.typeError
    | some is =>
      match mapInstances is, mapReservations rest with
      | Except.ok xs, Except.ok ys => Except.ok (xs ++ ys)
      | Except.error e, _ => Except.error e
      | _, Except.error e => Except.error e

/-- `EC2Manager.instance_from_response`: unpacks the describe-instances response
into a list of `EC2Instance` records, reservation-major, source order. -/
def instance_from_response (resp : DescribeResponse) : Except PyError (List EC2Instance) :=
  match resp.reservations with
  | none => Except.error PyError.typeError
  | some rs => mapReservations rs

/-- The ordered flattening of all raw instance entries of a response, defined on
a reservation list; `none` when some `"Instances"` key is missing. -/
def entriesOfRes : List Reservation → Option (List RawInstance)
  | [] => some []
  | r :: rest =>
    match r.instances, entriesOfRes rest with
    | some is, some acc => some (is ++ acc)
    | _, _ => none

/-- The ordered flattening of all raw instance entries of a response;
`none` when the `"Reservations"` or some `"Instances"` key is missing. -/
def entriesOf (resp : DescribeResponse) : Option (List RawInstance) :=
  match resp.reservations with
  | none => none
  | some rs => entriesOfRes rs

/-- Tags naming the print site that emitted an output line. -/
inductive FieldLine where
  | instanceIdLine
  | divider
  | ami
  | typeLine
  | launched
  | az
  | privateDns
  | publicDns
  | privateIp
  | publicIp
  | subnetLine
  | vpcLine
  | stateLine
  | tagsLine
  | blank
  | header
deriving DecidableEq

/-- Python `print(x)` when `x` may be `None`: `None` renders as `"None"`. -/
def optStr : Option String → String
  | some v => v
  | none => "None"

/-- Python `repr` of the tags value `List[Dict[str, str]]` (AWS tags are
`Key`/`Value` dictionaries); `None` renders as `"None"`. -/
def pyReprTags : Option (List (String × String)) → String
  | none => "None"
  | some ts =>
      "[" ++
        String.intercalate ", "
          (ts.map (fun kv =>
            "\x7b\x27Key\x27: \x27" ++ kv.1 ++ "\x27, \x27Value\x27: \x27" ++ kv.2 ++ "\x27\x7d"))
      ++ "]"

/-- `EC2Manager.not_quiet`: prints the message unless quiet is set. -/
def not_quiet (s : Settings) (f : FieldLine) (message : String) : List (FieldLine × String) :=
  if s.quiet then [] else [(f, message)]

/-- `EC2Manager.verbose_output`: prints the message only when verbose is set. -/
def verbose_output (s : Settings) (f : FieldLine) (message : String) : List (FieldLine × String) :=
  if s.verbose then [(f, message)] else []

/-- `EC2Manager.print_instance_summary`: the ordered lines the method prints for
one record, each tagged with the print site that emitted it. -/
def print_instance_summary (s : Settings) (i : EC2Instance) : List (FieldLine × String) :=
  [(FieldLine.instanceIdLine, optStr i.instance_id)]
  ++ not_quiet s FieldLine.divider "~~~~~~~~~~~~~~~~~~~~~~~~~~~~~~~~~~~~~~"
  ++ verbose_output s FieldLine.ami ("  AMI:         " ++ optStr i.image_id)
  ++ not_quiet s FieldLine.typeLine ("  Type:        " ++ optStr i.instance_type)
  ++ verbose_output s FieldLine.launched ("  Launched:    " ++ optStr i.launch_time)
  ++ verbose_output s FieldLine.az ("  AZ:          " ++ optStr i.availability_zone)
  ++ verbose_output s FieldLine.privateDns ("  Private DNS: " ++ optStr i.private_dns_name)
  ++ verbose_output s FieldLine.publicDns ("  Public DNS:  " ++ i.public_dns_name)
  ++ not_quiet s FieldLine.privateIp ("  Private IP:  " ++ optStr i.private_ip_address)
  ++ not_quiet s FieldLine.publicIp ("  Public IP:   " ++ i.public_ip_address)
  ++ verbose_output s FieldLine.subnetLine ("  Subnet Id:   " ++ optStr i.subnet_id)
  ++ verbose_output s FieldLine.vpcLine ("  VPC Id:      " ++ optStr i.vpc_id)
  ++ not_quiet s FieldLine.stateLine ("  State:       " ++ optStr i.state)
  ++ verbose_output s FieldLine.tagsLine ("  Tags:        " ++ pyReprTags i.tags)
  ++ [(FieldLine.blank, "")]

/-- How many lines of a summary were emitted by the given print site. -/
def lineCount (s : Settings) (i : EC2Instance) (f : FieldLine) : Nat :=
  (print_instance_summary s i).countP (fun p => decide (p.1 = f))

/-- The header the list mode prints through `not_quiet` (`\n` yields the blank
line after it). -/
def headerLine : String := "Instances found in your AWS account:\n"

/-- `EC2Manager.list_instances` given the outcome of the (uncaught)
`describe_instances` call: a raised `ClientError` propagates. -/
def list_instances (descr : Except ClientError DescribeResponse) :
    Except PyError (List EC2Instance) :=
  match descr with
  | Except.error e => Except.error (PyError.clientError e)
  | Except.ok resp => instance_from_response resp

/-- The `--list` branch of `__main__`: print the header unless quiet, then the
summary of each listed instance.  A `ClientError` from the describe call (or an
error while unpacking the response) is uncaught and terminates the process;
lines printed before the exception are not modelled. -/
def listMain (s : Settings) (descr : Except ClientError DescribeResponse) :
    Except PyError (List (FieldLine × String)) :=
  match list_instances descr with
  | Except.error e => Except.error e
  | Except.ok insts =>
      Except.ok (not_quiet s FieldLine.header headerLine
        ++ (insts.map (print_instance_summary s)).flatten)

/-- Which remote action a call performs. -/
inductive ActionKind where
  | startInstances
  | stopInstances
deriving DecidableEq

/-- One boto3 EC2 call: `start_instances` / `stop_instances` with its
`InstanceIds` and `DryRun` arguments. -/
structure EC2Call where
  action : ActionKind
  instanceIds : List String
  dryRun : Bool
deriving DecidableEq

/-- The boto3 client as a behaviour oracle: the outcome of each call. -/
abbrev Client : Type := EC2Call → Except ClientError Unit

/-- The dry-run permission-check call issued first by `EC2Manager.start`. -/
def startDryCall (s : Settings) : EC2Call :=
  { action := ActionKind.startInstances, instanceIds := [s.instance_id], dryRun := true }

/-- The real (state-changing) call issued by `EC2Manager.start`. -/
def startRealCall (s : Settings) : EC2Call :=
  { action := ActionKind.startInstances, instanceIds := [s.instance_id], dryRun := false }

/-- The dry-run permission-check call issued first by `EC2Manager.stop`. -/
def stopDryCall (s : Settings) : EC2Call :=
  { action := ActionKind.stopInstances, instanceIds := [s.instance_id], dryRun := true }

/-- The real (state-changing) call issued by `EC2Manager.stop`. -/
def stopRealCall (s : Settings) : EC2Call :=
  { action := ActionKind.stopInstances, instanceIds := [s.instance_id], dryRun := false }

/-- `EC2Manager.start`: dry run to verify permissions (every `ClientError` is
caught; messages only under `--test`), early return under `--test`, then the
real call (every `ClientError` caught and printed).  Returns the printed lines
and the ordered trace of issued calls.  Note the source's `"is staring..."`. -/
def startRun (s : Settings) (client : Client) : List String × List EC2Call :=
  let dryLines : List String :=
    match client (startDryCall s) with
    | Except.ok _ => []
    | Except.error e =>
      if pyIn "DryRunOperation" e.msg = false then
        if s.test then
          ["Test failed, can\x27t start " ++ s.instance_id ++ ".\n" ++ e.msg]
        else []
      else
        if s.test then
          ["Test successful, able to start " ++ s.instance_id ++ "."]
        else []
  if s.test then (dryLines, [startDryCall s])
  else
    match client (startRealCall s) with
    | Except.error e =>
        (dryLines ++ ["ERROR: " ++ e.msg], [startDryCall s, startRealCall s])
    | Except.ok _ =>
        (dryLines ++ ["Command successful, " ++ s.instance_id ++ " is staring..."],
          [startDryCall s, startRealCall s])

/-- `EC2Manager.stop`: same shape as `start` with the stop calls and
messages. -/
def stopRun (s : Settings) (client : Client) : List String × List EC2Call :=
  let dryLines : List String :=
    match client (stopDryCall s) with
    | Except.ok _ => []
    | Except.error e =>
      if pyIn "DryRunOperation" e.msg = false then
        if s.test then
          ["Test failed, can\x27t stop " ++ s.instance_id ++ ".\n" ++ e.msg]
        else []
      else
        if s.test then
          ["Test successful, able to stop " ++ s.instance_id ++ "."]
        else []
  if s.test then (dryLines, [stopDryCall s])
  else
    match client (stopRealCall s) with
    | Except.error e =>
        (dryLines ++ ["ERROR: " ++ e.msg], [stopDryCall s, stopRealCall s])
    | Except.ok _ =>
        (dryLines ++ ["Command successful, " ++ s.instance_id ++ " is stopping..."],
          [stopDryCall s, stopRealCall s])

/-- A client whose every call succeeds. -/
def exOkClient : Client := fun _ => Except.ok ()

/-- A dry-run-success `ClientError` rendering (the provider signals a
successful permission check through this failure code). -/
def exDryMsg : String := "An error occurred (DryRunOperation): Request would have succeeded."

/-- A genuine permission-failure `ClientError` rendering. -/
def exFailMsg : String := "An error occurred (UnauthorizedOperation): not authorized."

/-- A client whose every call fails with the dry-run-success signal. -/
def exDryClient : Client := fun _ => Except.error { msg := exDryMsg }

/-- A client whose every call fails with a genuine error. -/
def exFailClient : Client := fun _ => Except.error { msg := exFailMsg }

/-- Settings of a `--start i-123 --test` invocation. -/
def exTestS : Settings := { instance_id := "i-123", test := true }

/-- Settings of a `--start i-123` invocation (no flags). -/
def exNTS : Settings := { instance_id := "i-123" }

/-- Settings of a `--list --quiet` invocation. -/
def exQuietS : Settings := { instance_id := "", quiet := true }

/-- A fully populated raw describe-instances entry. -/
def exEntry : RawInstance :=
  { imageId := some "ami-0a1"
    instanceId := some "i-123"
    instanceType := some "t2.micro"
    launchTime := some "2021-05-01 10:00:00+00:00"
    placement := some { availabilityZone := some "us-east-1a" }
    privateDnsName := some "ip-10-0-0-1.ec2.internal"
    privateIpAddress := some "10.0.0.1"
    publicDnsName := some "ec2-54-1-2-3.compute-1.amazonaws.com"
    publicIpAddress := some "54.1.2.3"
    state := some { name := some "running" }
    subnetId := some "subnet-9"
    vpcId := some "vpc-7"
    tags := some [("Name", "web")] }

/-- Like `exEntry` with the public DNS name and public IP address keys absent. -/
def exEntryNoPublic : RawInstance :=
  { exEntry with instanceId := some "i-456", publicDnsName := none, publicIpAddress := none }

/-- Like `exEntry` with the public DNS name and public IP address present but
equal to the empty string (falsy in Python). -/
def exEntryEmptyDns : RawInstance :=
  { exEntry with publicDnsName := some "", publicIpAddress := some "" }

/-- Like `exEntry` with the `"Placement"` sub-dictionary absent. -/
def exEntryNoPlacement : RawInstance :=
  { exEntry with placement := none }

/-- The record the mapper produces from `exEntry`. -/
def exInstance : EC2Instance :=
  { image_id := some "ami-0a1"
    instance_id := some "i-123"
    instance_type := some "t2.micro"
    launch_time := some "2021-05-01 10:00:00+00:00"
    availability_zone := some "us-east-1a"
    private_dns_name := some "ip-10-0-0-1.ec2.internal"
    private_ip_address := some "10.0.0.1"
    public_ip_address := "54.1.2.3"
    public_dns_name := "ec2-54-1-2-3.compute-1.amazonaws.com"
    state := some "running"
    subnet_id := some "subnet-9"
    vpc_id := some "vpc-7"
    tags := some [("Name", "web")] }

/-- The record the mapper produces from `exEntryNoPublic`. -/
def exInstanceNoPublic : EC2Instance :=
  { exInstance with instance_id := some "i-456", public_ip_address := "NONE", public_dns_name := "NONE" }

/-- The record the mapper produces from `exEntryEmptyDns`. -/
def exInstanceEmptyDns : EC2Instance :=
  { exInstance with public_ip_address := "NONE", public_dns_name := "NONE" }

/-- A describe response with one reservation holding two instance entries. -/
def exResp : DescribeResponse :=
  { reservations := some [{ instances := some [exEntry, exEntryNoPublic] }] }

/-- The records the mapper produces from `exResp`. -/
def exInstances : List EC2Instance := [exInstance, exInstanceNoPublic]

/-- A string is a substring of any string it ends. -/
lemma pyIn_append_right (pre post : String) : pyIn post (pre ++ post) = true := by
  apply decide_eq_true
  refine ⟨pre.toList, [], ?_⟩
  simp [String.toList]

/-- `mapInstances` relates entries to records one-to-one, in order. -/
lemma mapInstances_ok_forall₂ :
    ∀ (is : List RawInstance) (xs : List EC2Instance), mapInstances is = Except.ok xs →
      List.Forall₂ (fun e r => instanceFromEntry e = Except.ok r) is xs := by
  intro is
  induction is with
  | nil =>
    intro xs h
    simp only [mapInstances] at h
    injection h with h2
    subst h2
    exact List.Forall₂.nil
  | cons i rest ih =>
    intro xs h
    simp only [mapInstances] at h
    split at h
    next r rs hi hr =>
      injection h with h2
      subst h2
      exact List.Forall₂.cons hi (ih rs hr)
    next => exact absurd h (by simp)
    next => exact absurd h (by simp)

/-- `mapReservations` relates the flattened entries to records one-to-one, in
order. -/
lemma mapReservations_ok_forall₂ :
    ∀ (rs : List Reservation) (l : List EC2Instance), mapReservations rs = Except.ok l →
      ∃ es, entriesOfRes rs = some es ∧
        List.Forall₂ (fun e r => instanceFromEntry e = Except.ok r) es l := by
  intro rs
  induction rs with
  | nil =>
    intro l h
    simp only [mapReservations] at h
    injection h with h2
    subst h2
    exact ⟨[], rfl, List.Forall₂.nil⟩
  | cons r rest ih =>
    intro l h
    obtain ⟨ri⟩ := r
    cases ri with
    | none =>
      simp only [mapReservations] at h
      exact absurd h (by simp)
    | some is =>
      simp only [mapReservations] at h
      cases hx : mapInstances is with
      | error e =>
        rw [hx] at h
        exact absurd h (by simp)
      | ok xs =>
        cases hy : mapReservations rest with
        | error e2 =>
          rw [hx, hy] at h
          exact absurd h (by simp)
        | ok ys =>
          rw [hx, hy] at h
          simp only [Except.ok.injEq] at h
          subst h
          obtain ⟨es, hes, hf⟩ := ih ys hy
          refine ⟨is ++ es, ?_, ?_⟩
          · simp only [entriesOfRes, hes]
          · exact List.rel_append (mapInstances_ok_forall₂ is xs hx) hf

/-- Claim C7 (confirmed): for every describe response the mapper accepts, it is
a pure function producing exactly one record per raw instance entry, the records
appearing in the same reservation-major source order as the entries. -/
theorem mapper_one_record_per_entry (resp : DescribeResponse) (l : List EC2Instance)
    (h : instance_from_response resp = Except.ok l) :
    ∃ es, entriesOf resp = some es ∧
      List.Forall₂ (fun e r => instanceFromEntry e = Except.ok r) es l := by
  unfold instance_from_response at h
  split at h
  next => exact absurd h (by simp)
  next rs hrs =>
    obtain ⟨es, hes, hf⟩ := mapReservations_ok_forall₂ rs l h
    refine ⟨es, ?_, hf⟩
    unfold entriesOf
    rw [hrs]
    exact hes

/-- Witness for C7 at a concrete response with one reservation and two
entries. -/
theorem mapper_one_record_per_entry_witness :
    ∃ es, entriesOf exResp = some es ∧
      List.Forall₂ (fun e r => instanceFromEntry e = Except.ok r) es exInstances :=
  mapper_one_record_per_entry exResp exInstances rfl

/-- Counterexample for C3 as stated: a present-but-empty public DNS name is not
passed through unchanged (Python truthiness maps it to the sentinel). -/
theorem public_passthrough_refuted :
    ¬ (∀ (e : RawInstance) (rec : EC2Instance), instanceFromEntry e = Except.ok rec →
        ∀ v, e.publicDnsName = some v → rec.public_dns_name = v) := by
  intro hall
  have hx := hall exEntryEmptyDns exInstanceEmptyDns rfl "" rfl
  exact absurd hx (by decide)

/-- Claim C3 (corrected): the public DNS name and public IP address of a mapped
record equal the sentinel `"NONE"` when the source field is absent or present
with an empty (falsy) value, and a present non-empty value is passed through
unchanged. -/
theorem public_sentinel_policy (e : RawInstance) (rec : EC2Instance)
    (h : instanceFromEntry e = Except.ok rec) :
    ((e.publicDnsName = none ∨ e.publicDnsName = some "") → rec.public_dns_name = "NONE") ∧
    (∀ v, e.publicDnsName = some v → v ≠ "" → rec.public_dns_name = v) ∧
    ((e.publicIpAddress = none ∨ e.publicIpAddress = some "") → rec.public_ip_address = "NONE") ∧
    (∀ v, e.publicIpAddress = some v → v ≠ "" → rec.public_ip_address = v) := by
  unfold instanceFromEntry at h
  split at h
  next placement st hp hs =>
    injection h with h2
    subst h2
    refine ⟨?_, ?_, ?_, ?_⟩
    · rintro (hd | hd) <;> simp [truthyOrNone, hd]
    · intro v hv hne
      simp [truthyOrNone, hv, hne]
    · rintro (hd | hd) <;> simp [truthyOrNone, hd]
    · intro v hv hne
      simp [truthyOrNone, hv, hne]
  next => exact absurd h (by simp)

/-- Witness for C3 (corrected) at the entry whose public fields are absent. -/
theorem public_sentinel_policy_witness :
    ((exEntryNoPublic.publicDnsName = none ∨ exEntryNoPublic.publicDnsName = some "") →
      exInstanceNoPublic.public_dns_name = "NONE") ∧
    (∀ v, exEntryNoPublic.publicDnsName = some v → v ≠ "" →
      exInstanceNoPublic.public_dns_name = v) ∧
    ((exEntryNoPublic.publicIpAddress = none ∨ exEntryNoPublic.publicIpAddress = some "") →
      exInstanceNoPublic.public_ip_address = "NONE") ∧
    (∀ v, exEntryNoPublic.publicIpAddress = some v → v ≠ "" →
      exInstanceNoPublic.public_ip_address = v) :=
  public_sentinel_policy exEntryNoPublic exInstanceNoPublic rfl

/-- Counterexample for C9 as stated: the mapper is not total on instance
entries; an entry whose `"Placement"` sub-dictionary is absent raises an
`AttributeError` instead of producing a record. -/
theorem mapper_totality_refuted :
    ¬ (∀ e : RawInstance, ∃ rec, instanceFromEntry e = Except.ok rec) := by
  intro hall
  obtain ⟨rec, hrec⟩ := hall exEntryNoPlacement
  rw [show instanceFromEntry exEntryNoPlacement = Except.error PyError.attributeError from rfl]
    at hrec
  cases hrec

/-- Claim C9 (corrected): whenever the mapper produces a record, every field
other than the public DNS name and public IP address is passed through
unconditionally (an absent upstream field yields an absent value), except that
the availability zone and state name are read from the `"Placement"` and
`"State"` sub-dictionaries, which must be present for the mapper to succeed at
all. -/
theorem field_passthrough (e : RawInstance) (rec : EC2Instance)
    (h : instanceFromEntry e = Except.ok rec) :
    rec.image_id = e.imageId ∧ rec.instance_id = e.instanceId ∧
    rec.instance_type = e.instanceType ∧ rec.launch_time = e.launchTime ∧
    rec.private_dns_name = e.privateDnsName ∧
    rec.private_ip_address = e.privateIpAddress ∧
    rec.subnet_id = e.subnetId ∧ rec.vpc_id = e.vpcId ∧ rec.tags = e.tags ∧
    (∃ p, e.placement = some p ∧ rec.availability_zone = p.availabilityZone) ∧
    (∃ st, e.state = some st ∧ rec.state = st.name) := by
  unfold instanceFromEntry at h
  split at h
  next placement st hp hs =>
    injection h with h2
    subst h2
    exact ⟨rfl, rfl, rfl, rfl, rfl, rfl, rfl, rfl, rfl, ⟨placement, hp, rfl⟩, ⟨st, hs, rfl⟩⟩
  next => exact absurd h (by simp)

/-- Witness for C9 (corrected) at a fully populated entry. -/
theorem field_passthrough_witness :
    exInstance.image_id = exEntry.imageId ∧ exInstance.instance_id = exEntry.instanceId ∧
    exInstance.instance_type = exEntry.instanceType ∧
    exInstance.launch_time = exEntry.launchTime ∧
    exInstance.private_dns_name = exEntry.privateDnsName ∧
    exInstance.private_ip_address = exEntry.privateIpAddress ∧
    exInstance.subnet_id = exEntry.subnetId ∧ exInstance.vpc_id = exEntry.vpcId ∧
    exInstance.tags = exEntry.tags ∧
    (∃ p, exEntry.placement = some p ∧ exInstance.availability_zone = p.availabilityZone) ∧
    (∃ st, exEntry.state = some st ∧ exInstance.state = st.name) :=
  field_passthrough exEntry exInstance rfl

/-- Counterexample for C2 as stated: the tilde divider line is not always
printed; under `--quiet` the divider print goes through `not_quiet` and is
suppressed. -/
theorem divider_not_always_printed :
    ¬ (∀ (s : Settings) (i : EC2Instance), lineCount s i FieldLine.divider = 1) := by
  intro hall
  exact absurd (hall exQuietS exInstance) (by decide)

/-- Claim C2 (corrected): for every record and flag combination, the summary
printer emits the instance id and the trailing blank line always; the divider,
type, private IP, public IP and state lines exactly when quiet is not set; and
the AMI, launch time, availability zone, private DNS, public DNS, subnet id,
VPC id and tags lines exactly when verbose is set, independent of quiet. -/
theorem summary_tier_counts (s : Settings) (i : EC2Instance) :
    lineCount s i FieldLine.instanceIdLine = 1 ∧
    lineCount s i FieldLine.blank = 1 ∧
    lineCount s i FieldLine.divider = (if s.quiet then 0 else 1) ∧
    lineCount s i FieldLine.typeLine = (if s.quiet then 0 else 1) ∧
    lineCount s i FieldLine.privateIp = (if s.quiet then 0 else 1) ∧
    lineCount s i FieldLine.publicIp = (if s.quiet then 0 else 1) ∧
    lineCount s i FieldLine.stateLine = (if s.quiet then 0 else 1) ∧
    lineCount s i FieldLine.ami = (if s.verbose then 1 else 0) ∧
    lineCount s i FieldLine.launched = (if s.verbose then 1 else 0) ∧
    lineCount s i FieldLine.az = (if s.verbose then 1 else 0) ∧
    lineCount s i FieldLine.privateDns = (if s.verbose then 1 else 0) ∧
    lineCount s i FieldLine.publicDns = (if s.verbose then 1 else 0) ∧
    lineCount s i FieldLine.subnetLine = (if s.verbose then 1 else 0) ∧
    lineCount s i FieldLine.vpcLine = (if s.verbose then 1 else 0) ∧
    lineCount s i FieldLine.tagsLine = (if s.verbose then 1 else 0) := by
  obtain ⟨sid, st, sv, sq⟩ := s
  cases sv <;> cases sq <;>
    simp [lineCount, print_instance_summary, not_quiet, verbose_output,
      List.countP_cons, List.countP_append]

/-- Claim C10 (confirmed): in list mode, the header line is printed first, and
exactly when quiet is not set; every other line of the list-mode output comes
from printing the summary of one mapped record, in order. -/
theorem list_header_gating (s : Settings) (resp : DescribeResponse)
    (insts : List EC2Instance) (h : instance_from_response resp = Except.ok insts) :
    listMain s (Except.ok resp) =
      Except.ok ((if s.quiet then [] else [(FieldLine.header, headerLine)])
        ++ (insts.map (print_instance_summary s)).flatten) := by
  simp only [listMain, list_instances, h, not_quiet]

/-- Witness for C10 under `--list --quiet` at the two-entry response. -/
theorem list_header_gating_witness :
    listMain exQuietS (Except.ok exResp) =
      Except.ok ((if exQuietS.quiet then [] else [(FieldLine.header, headerLine)])
        ++ (exInstances.map (print_instance_summary exQuietS)).flatten) :=
  list_header_gating exQuietS exResp exInstances rfl

/-- Claim C1 (confirmed): under `--test`, every call `start` or `stop` issues is
a dry-run call (no state-changing call is ever issued); and when the dry-run
call fails with the dry-run-success signal, exactly one success line is printed
and the real action call is issued zero times. -/
theorem test_mode_no_real_call (s : Settings) (client : Client) (e e2 : ClientError)
    (ht : s.test = true) :
    (startRun s client).2.all (fun c => c.dryRun) = true ∧
    (stopRun s client).2.all (fun c => c.dryRun) = true ∧
    (client (startDryCall s) = Except.error e → pyIn "DryRunOperation" e.msg = true →
      (startRun s client).1 = ["Test successful, able to start " ++ s.instance_id ++ "."] ∧
      (startRun s client).2.countP (fun c => !c.dryRun) = 0) ∧
    (client (stopDryCall s) = Except.error e2 → pyIn "DryRunOperation" e2.msg = true →
      (stopRun s client).1 = ["Test successful, able to stop " ++ s.instance_id ++ "."] ∧
      (stopRun s client).2.countP (fun c => !c.dryRun) = 0) := by
  refine ⟨?_, ?_, ?_, ?_⟩
  · simp [startRun, ht, startDryCall]
  · simp [stopRun, ht, stopDryCall]
  · intro hd hm
    constructor
    · simp [startRun, ht, hd, hm]
    · simp [startRun, ht, startDryCall]
  · intro hd hm
    constructor
    · simp [stopRun, ht, hd, hm]
    · simp [stopRun, ht, stopDryCall]

/-- Witness for C1: a `--test` start and stop against a client answering every
call with the dry-run-success signal. -/
theorem test_mode_no_real_call_witness :
    (startRun exTestS exDryClient).2.all (fun c => c.dryRun) = true ∧
    (stopRun exTestS exDryClient).2.all (fun c => c.dryRun) = true ∧
    (startRun exTestS exDryClient).1 =
      ["Test successful, able to start " ++ exTestS.instance_id ++ "."] ∧
    (startRun exTestS exDryClient).2.countP (fun c => !c.dryRun) = 0 ∧
    (stopRun exTestS exDryClient).1 =
      ["Test successful, able to stop " ++ exTestS.instance_id ++ "."] ∧
    (stopRun exTestS exDryClient).2.countP (fun c => !c.dryRun) = 0 := by
  have h := test_mode_no_real_call exTestS exDryClient
    { msg := exDryMsg } { msg := exDryMsg } rfl
  have hs := h.2.2.1 rfl (by decide)
  have hp := h.2.2.2 rfl (by decide)
  exact ⟨h.1, h.2.1, hs.1, hs.2, hp.1, hp.2⟩

/-- Claim C4 (confirmed): with test mode inactive, the real call is issued
exactly once, right after the dry-run check; the printed output is determined
by the real call's outcome alone, so nothing about the dry-run outcome is
printed. -/
theorem nontest_real_call_once (s : Settings) (client : Client) (ht : s.test = false) :
    (startRun s client).2 = [startDryCall s, startRealCall s] ∧
    (startRun s client).1 = (match client (startRealCall s) with
      | Except.error e => ["ERROR: " ++ e.msg]
      | Except.ok _ => ["Command successful, " ++ s.instance_id ++ " is staring..."]) ∧
    (stopRun s client).2 = [stopDryCall s, stopRealCall s] ∧
    (stopRun s client).1 = (match client (stopRealCall s) with
      | Except.error e => ["ERROR: " ++ e.msg]
      | Except.ok _ => ["Command successful, " ++ s.instance_id ++ " is stopping..."]) := by
  refine ⟨?_, ?_, ?_, ?_⟩
  · cases hdc : client (startDryCall s) <;> cases hrc : client (startRealCall s) <;>
      simp [startRun, ht, hdc, hrc]
  · cases hdc : client (startDryCall s) <;> cases hrc : client (startRealCall s) <;>
      simp [startRun, ht, hdc, hrc]
  · cases hdc : client (stopDryCall s) <;> cases hrc : client (stopRealCall s) <;>
      simp [stopRun, ht, hdc, hrc]
  · cases hdc : client (stopDryCall s) <;> cases hrc : client (stopRealCall s) <;>
      simp [stopRun, ht, hdc, hrc]

/-- Witness for C4: a flagless start and stop against a client whose dry-run
call fails with a genuine error and whose real call succeeds. -/
theorem nontest_real_call_once_witness :
    (startRun exNTS exOkClient).2 = [startDryCall exNTS, startRealCall exNTS] ∧
    (startRun exNTS exOkClient).1 = (match exOkClient (startRealCall exNTS) with
      | Except.error e => ["ERROR: " ++ e.msg]
      | Except.ok _ => ["Command successful, " ++ exNTS.instance_id ++ " is staring..."]) ∧
    (stopRun exNTS exOkClient).2 = [stopDryCall exNTS, stopRealCall exNTS] ∧
    (stopRun exNTS exOkClient).1 = (match exOkClient (stopRealCall exNTS) with
      | Except.error e => ["ERROR: " ++ e.msg]
      | Except.ok _ => ["Command successful, " ++ exNTS.instance_id ++ " is stopping..."]) :=
  nontest_real_call_once exNTS exOkClient rfl

/-- Claim C8 (confirmed): under `--test`, a failing dry-run call is classified
by whether its rendering carries the dry-run-success code: that code yields the
success line, any other failure yields a failure line that includes the raw
error. -/
theorem dry_run_failure_classification (s : Settings) (client : Client)
    (e e2 : ClientError) (ht : s.test = true)
    (hs : client (startDryCall s) = Except.error e)
    (hp : client (stopDryCall s) = Except.error e2) :
    (pyIn "DryRunOperation" e.msg = true →
      (startRun s client).1 = ["Test successful, able to start " ++ s.instance_id ++ "."]) ∧
    (pyIn "DryRunOperation" e.msg = false →
      (startRun s client).1 =
        ["Test failed, can\x27t start " ++ s.instance_id ++ ".\n" ++ e.msg] ∧
      pyIn e.msg (((startRun s client).1).headD "") = true) ∧
    (pyIn "DryRunOperation" e2.msg = true →
      (stopRun s client).1 = ["Test successful, able to stop " ++ s.instance_id ++ "."]) ∧
    (pyIn "DryRunOperation" e2.msg = false →
      (stopRun s client).1 =
        ["Test failed, can\x27t stop " ++ s.instance_id ++ ".\n" ++ e2.msg] ∧
      pyIn e2.msg (((stopRun s client).1).headD "") = true) := by
  refine ⟨?_, ?_, ?_, ?_⟩
  · intro hm
    simp [startRun, ht, hs, hm]
  · intro hm
    have hout : (startRun s client).1 =
        ["Test failed, can\x27t start " ++ s.instance_id ++ ".\n" ++ e.msg] := by
      simp [startRun, ht, hs, hm]
    refine ⟨hout, ?_⟩
    rw [hout]
    exact pyIn_append_right ("Test failed, can\x27t start " ++ s.instance_id ++ ".\n") e.msg
  · intro hm
    simp [stopRun, ht, hp, hm]
  · intro hm
    have hout : (stopRun s client).1 =
        ["Test failed, can\x27t stop " ++ s.instance_id ++ ".\n" ++ e2.msg] := by
      simp [stopRun, ht, hp, hm]
    refine ⟨hout, ?_⟩
    rw [hout]
    exact pyIn_append_right ("Test failed, can\x27t stop " ++ s.instance_id ++ ".\n") e2.msg

/-- Witness for C8: the success classification against the dry-run-success
client and the failure classification against the genuinely failing client. -/
theorem dry_run_failure_classification_witness :
    (startRun exTestS exDryClient).1 =
      ["Test successful, able to start " ++ exTestS.instance_id ++ "."] ∧
    (startRun exTestS exFailClient).1 =
      ["Test failed, can\x27t start " ++ exTestS.instance_id ++ ".\n" ++ exFailMsg] ∧
    pyIn exFailMsg (((startRun exTestS exFailClient).1).headD "") = true ∧
    (stopRun exTestS exFailClient).1 =
      ["Test failed, can\x27t stop " ++ exTestS.instance_id ++ ".\n" ++ exFailMsg] := by
  have h1 := dry_run_failure_classification exTestS exDryClient
    { msg := exDryMsg } { msg := exDryMsg } rfl rfl rfl
  have h2 := dry_run_failure_classification exTestS exFailClient
    { msg := exFailMsg } { msg := exFailMsg } rfl rfl rfl
  exact ⟨h1.1 (by decide), (h2.2.1 (by decide)).1, (h2.2.1 (by decide)).2,
    (h2.2.2.2 (by decide)).1⟩

/-- Counterexample for C5 as stated: in list mode a provider error from the
describe call is not caught; it propagates and terminates the process. -/
theorem list_error_propagates :
    ¬ (∀ (s : Settings) (e : ClientError),
        ∃ out, listMain s (Except.error e) = Except.ok out) := by
  intro hall
  obtain ⟨out, hout⟩ := hall exNTS { msg := exFailMsg }
  rw [show listMain exNTS (Except.error { msg := exFailMsg }) =
      Except.error (PyError.clientError { msg := exFailMsg }) from rfl] at hout
  cases hout

/-- Claim C5 (corrected): during start and stop every provider error is caught
locally (an error of the real action call is printed as an `ERROR:` line), but
in list mode a provider error of the describe call propagates uncaught. -/
theorem error_handling_by_operation (s : Settings) (client : Client) (e : ClientError) :
    (s.test = false → client (startRealCall s) = Except.error e →
      ("ERROR: " ++ e.msg) ∈ (startRun s client).1) ∧
    (s.test = false → client (stopRealCall s) = Except.error e →
      ("ERROR: " ++ e.msg) ∈ (stopRun s client).1) ∧
    listMain s (Except.error e) = Except.error (PyError.clientError e) := by
  refine ⟨?_, ?_, rfl⟩
  · intro ht hr
    cases hdc : client (startDryCall s) <;> simp [startRun, ht, hdc, hr]
  · intro ht hr
    cases hdc : client (stopDryCall s) <;> simp [stopRun, ht, hdc, hr]

/-- Witness for C5 (corrected): a failing real call is printed as an `ERROR:`
line and a failing describe call propagates. -/
theorem error_handling_by_operation_witness :
    ("ERROR: " ++ exFailMsg) ∈ (startRun exNTS exFailClient).1 ∧
    ("ERROR: " ++ exFailMsg) ∈ (stopRun exNTS exFailClient).1 ∧
    listMain exNTS (Except.error { msg := exFailMsg }) =
      Except.error (PyError.clientError { msg := exFailMsg }) := by
  have h := error_handling_by_operation exNTS exFailClient { msg := exFailMsg }
  exact ⟨h.1 rfl rfl, h.2.1 rfl rfl, h.2.2⟩

/-- Claim C6 (code bug): on a successful non-test start the code prints
`"... is staring..."` (a typo) rather than a confirmation containing
`"starting"`; the stop side does print `"stopping"`. -/
theorem start_confirmation_typo :
    (startRun exNTS exOkClient).1 = ["Command successful, i-123 is staring..."] ∧
    pyIn "starting" (((startRun exNTS exOkClient).1).headD "") = false ∧
    (stopRun exNTS exOkClient).1 = ["Command successful, i-123 is stopping..."] ∧
    pyIn "stopping" (((stopRun exNTS exOkClient).1).headD "") = true := by
  refine ⟨by decide, by decide, by decide, by decide⟩
